import Mathlib

/-!
Verification of the build-my-bowl application core.

This file gives a shallow embedding of the data model and the core
operations of the repository (the nutrition aggregator, the bowl
access-control helpers, the unsaved-bowl lifecycle, the line and
override mutations, and the cookie-based user resolution), translated
from `app/models.py`, `app/auth.py`, `app/routers/bowls_ui.py` and
`app/routers/bowls_api.py`, and proves the frozen specification claims
about them.

Python floats are modelled as rationals, the SQL tables as lists of
rows, and a request handler as a function from the database state to a
result paired with the final database state.  An `HTTPException` raised
by a handler is modelled as an `Except.error` carrying the status code
and detail string.
-/

/-- Row of the `user` table (`app/models.py`, class `User`). -/
structure User where
  id : Nat
  username : String
  password_hash : String
  name : String
deriving DecidableEq, Repr

/-- Row of the `ingredient` table (`app/models.py`, class `Ingredient`). -/
structure Ingredient where
  id : Nat
  name : String
  calories : ℚ
  protein : ℚ
  fiber : ℚ
  sugar : ℚ
  icon_filename : Option String
  bowl_image_filename : Option String
  is_drizzle : Bool
deriving DecidableEq, Repr

/-- Row of the `bowl` table (`app/models.py`, class `Bowl`). -/
structure Bowl where
  id : Nat
  name : String
  user_id : Nat
  saved : Bool
deriving DecidableEq, Repr

/-- Row of the `bowlingredient` table (`app/models.py`, class `BowlIngredient`). -/
structure BowlIngredient where
  id : Nat
  bowl_id : Nat
  ingredient_id : Nat
  quantity : ℚ
deriving DecidableEq, Repr

/-- Row of the `useringredientnutrition` table
(`app/models.py`, class `UserIngredientNutrition`). -/
structure UserIngredientNutrition where
  id : Nat
  user_id : Nat
  ingredient_id : Nat
  calories : ℚ
  protein : ℚ
  fiber : ℚ
  sugar : ℚ
deriving DecidableEq, Repr

/-- The whole database: one list of rows per table, plus the
autoincrement counters used when new `bowl` and `bowlingredient` rows
are inserted. -/
structure DB where
  users : List User
  ingredients : List Ingredient
  bowls : List Bowl
  bowlIngredients : List BowlIngredient
  overrides : List UserIngredientNutrition
  nextBowlId : Nat
  nextLineId : Nat
deriving DecidableEq, Repr

/-- An `HTTPException(status_code=..., detail=...)` raised by a handler,
together with the 422 validation errors produced by the request layer
and the 500 response produced by an uncaught Python exception. -/
structure HTTPError where
  status : Nat
  detail : String
deriving DecidableEq, Repr

/-- Python's `str.strip()`: drop whitespace from both ends. -/
def pyStrip (s : String) : String :=
  ⟨((s.data.dropWhile Char.isWhitespace).reverse.dropWhile Char.isWhitespace).reverse⟩

/-- Test whether `needle` occurs at the start of `hay` (on characters). -/
def chunkAt : List Char → List Char → Bool
  | [], _ => true
  | _ :: _, [] => false
  | a :: as, b :: bs => a == b && chunkAt as bs

/-- Test whether `needle` occurs anywhere inside the character list. -/
def hasChunk (needle : List Char) : List Char → Bool
  | [] => needle.isEmpty
  | c :: tl => chunkAt needle (c :: tl) || hasChunk needle tl

/-- Python's `needle in hay.lower()`: case-insensitive substring test,
with the needle already lowercase as in the source. -/
def strHas (hay needle : String) : Bool :=
  hasChunk needle.data (hay.data.map Char.toLower)

/-- Round a rational to the nearest integer, ties to even, which is the
rounding used by Python's builtin `round`. -/
def roundHalfEvenInt (x : ℚ) : ℤ :=
  let f := Int.floor x
  let r := x - (f : ℚ)
  if r < 1/2 then f
  else if 1/2 < r then f + 1
  else if f % 2 = 0 then f else f + 1

/-- Python's `round(x, 2)`: round to two decimal places. -/
def round2 (x : ℚ) : ℚ :=
  ((roundHalfEvenInt (x * 100) : ℚ)) / 100

/-- `session.get(Bowl, bowl_id)`. -/
def findBowl (db : DB) (bowl_id : Nat) : Option Bowl :=
  db.bowls.find? (fun b => b.id == bowl_id)

/-- `session.get(Ingredient, ingredient_id)`. -/
def findIngredient (db : DB) (ingredient_id : Nat) : Option Ingredient :=
  db.ingredients.find? (fun ing => ing.id == ingredient_id)

/-- The `select(UserIngredientNutrition).where(user_id, ingredient_id)`
lookup shared by `get_ingredient_nutrition` and `update_ingredient_htmx`. -/
def findOverride (db : DB) (user_id ingredient_id : Nat) : Option UserIngredientNutrition :=
  db.overrides.find? (fun n => n.user_id == user_id && n.ingredient_id == ingredient_id)

/-- The four per-unit nutrient values returned by `get_ingredient_nutrition`. -/
structure Nutrition where
  calories : ℚ
  protein : ℚ
  fiber : ℚ
  sugar : ℚ
deriving DecidableEq, Repr

/-- `get_ingredient_nutrition` (`app/routers/bowls_ui.py`, lines 80 to 107):
use the per-user override when present, else the ingredient defaults,
else zeros when the ingredient is gone. -/
def get_ingredient_nutrition (ingredient_id user_id : Nat) (db : DB) : Nutrition :=
  match findOverride db user_id ingredient_id with
  | some n => ⟨n.calories, n.protein, n.fiber, n.sugar⟩
  | none =>
    match findIngredient db ingredient_id with
    | none => ⟨0, 0, 0, 0⟩
    | some ing => ⟨ing.calories, ing.protein, ing.fiber, ing.sugar⟩

/-- The unit string computed inside the loop of `calculate_nutrition`
(`app/routers/bowls_ui.py`, lines 165 to 180): an ordered chain of
case-insensitive substring tests on the ingredient name, singular when
the quantity is exactly one. -/
def unitFor (name : String) (quantity : ℚ) : String :=
  if strHas name "yogurt" then (if quantity = 1 then "cup" else "cups")
  else if strHas name "honey" then "tbsp"
  else if strHas name "peanut" then "tbsp"
  else if strHas name "nuts" then (if quantity = 1 then "cup" else "cups")
  else if strHas name "strawberry" && !(strHas name "yogurt") then
    (if quantity = 1 then "strawberry" else "strawberries")
  else if strHas name "blueberr" then (if quantity = 1 then "cup" else "cups")
  else if strHas name "banana" then
    (if quantity = 1 then "medium banana" else "medium bananas")
  else ""

/-- One entry of the `ingredients` list in the dict returned by
`calculate_nutrition`. -/
structure LineOut where
  id : Nat
  name : String
  quantity : ℚ
  unit : String
  calories : ℚ
  protein : ℚ
  fiber : ℚ
  sugar : ℚ
  icon_filename : Option String
  bowl_image_filename : Option String
  is_drizzle : Bool
deriving DecidableEq, Repr

/-- The dict returned by `calculate_nutrition`. -/
structure NutritionResult where
  ingredients : List LineOut
  total_calories : ℚ
  total_protein : ℚ
  total_fiber : ℚ
  total_sugar : ℚ
  tags : List String
deriving DecidableEq, Repr

/-- The per-line dict appended inside the loop of `calculate_nutrition`
(`app/routers/bowls_ui.py`, lines 182 to 195). -/
def lineOutput (user_id : Nat) (db : DB) (bi : BowlIngredient) (ingredient : Ingredient) : LineOut :=
  let n := get_ingredient_nutrition bi.ingredient_id user_id db
  { id := ingredient.id
    name := ingredient.name
    quantity := bi.quantity
    unit := unitFor ingredient.name bi.quantity
    calories := round2 (n.calories * bi.quantity)
    protein := round2 (n.protein * bi.quantity)
    fiber := round2 (n.fiber * bi.quantity)
    sugar := round2 (n.sugar * bi.quantity)
    icon_filename := ingredient.icon_filename
    bowl_image_filename := ingredient.bowl_image_filename
    is_drizzle := ingredient.is_drizzle }

/-- Accumulator of the `for bi in bowl_ingredients` loop of
`calculate_nutrition`: the four running totals and the list built so far. -/
structure AggAcc where
  total_calories : ℚ
  total_protein : ℚ
  total_fiber : ℚ
  total_sugar : ℚ
  ingredients_list : List LineOut
deriving DecidableEq, Repr

/-- The `for bi in bowl_ingredients` loop of `calculate_nutrition`
(`app/routers/bowls_ui.py`, lines 145 to 195): skip a line whose
ingredient is gone from the catalog, otherwise accumulate the raw
(unrounded) per-line values into the totals and append the per-line
dict with rounded figures. -/
def nutritionLoop (user_id : Nat) (db : DB) (acc : AggAcc) : List BowlIngredient → AggAcc
  | [] => acc
  | bi :: rest =>
    match findIngredient db bi.ingredient_id with
    | none => nutritionLoop user_id db acc rest
    | some ingredient =>
      let n := get_ingredient_nutrition bi.ingredient_id user_id db
      nutritionLoop user_id db
        { total_calories := acc.total_calories + n.calories * bi.quantity
          total_protein := acc.total_protein + n.protein * bi.quantity
          total_fiber := acc.total_fiber + n.fiber * bi.quantity
          total_sugar := acc.total_sugar + n.sugar * bi.quantity
          ingredients_list := acc.ingredients_list ++ [lineOutput user_id db bi ingredient] }
        rest

/-- The three tags computed from the raw totals
(`app/routers/bowls_ui.py`, lines 197 to 220). -/
def computeTags (total_protein total_fiber total_sugar : ℚ) : List String :=
  [ if total_protein ≥ 20 then "High Protein"
    else if total_protein ≥ 10 then "Moderate Protein"
    else "Low Protein",
    if total_fiber ≥ 6 then "High Fiber"
    else if total_fiber ≥ 3 then "Moderate Fiber"
    else "Low Fiber",
    if total_sugar ≥ 20 then "High Sugar"
    else if total_sugar ≥ 10 then "Moderate Sugar"
    else "Low Sugar" ]

/-- `calculate_nutrition` (`app/routers/bowls_ui.py`, lines 133 to 230). -/
def calculate_nutrition (bowl_id user_id : Nat) (db : DB) : NutritionResult :=
  let bowl_ingredients := db.bowlIngredients.filter (fun bi => bi.bowl_id == bowl_id)
  let acc := nutritionLoop user_id db ⟨0, 0, 0, 0, []⟩ bowl_ingredients
  { ingredients := acc.ingredients_list
    total_calories := round2 acc.total_calories
    total_protein := round2 acc.total_protein
    total_fiber := round2 acc.total_fiber
    total_sugar := round2 acc.total_sugar
    tags := computeTags acc.total_protein acc.total_fiber acc.total_sugar }

/-- `get_saved_bowls` (`app/routers/bowls_ui.py`, lines 59 to 64). -/
def get_saved_bowls (user_id : Nat) (db : DB) : List Bowl :=
  db.bowls.filter (fun b => b.user_id == user_id && b.saved == true)

/-- `get_or_create_unsaved_bowl` (`app/routers/bowls_ui.py`, lines 66 to 77):
return the first unsaved bowl of the user, or insert a fresh bowl named
"My Bowl" with `saved=False` and return it.  The pair is the returned
bowl together with the database after the possible insert. -/
def get_or_create_unsaved_bowl (user_id : Nat) (db : DB) : Bowl × DB :=
  match db.bowls.find? (fun b => b.user_id == user_id && b.saved == false) with
  | some bowl => (bowl, db)
  | none =>
    let bowl : Bowl := ⟨db.nextBowlId, "My Bowl", user_id, false⟩
    (bowl, { db with bowls := db.bowls ++ [bowl], nextBowlId := db.nextBowlId + 1 })

namespace BowlsApi

/-- `verify_bowl_access` (`app/routers/bowls_api.py`, lines 11 to 32):
404 when the bowl does not exist, 401 when it belongs to another user. -/
def verify_bowl_access (bowl : Option Bowl) (current_user : User)
    (not_found_detail unauthorized_detail : String) : Except HTTPError Bowl :=
  match bowl with
  | none => .error ⟨404, not_found_detail⟩
  | some b =>
    if b.user_id ≠ current_user.id then .error ⟨401, unauthorized_detail⟩
    else .ok b

/-- `get_and_verify_bowl` (`app/routers/bowls_api.py`, lines 34 to 43). -/
def get_and_verify_bowl (bowl_id : Nat) (current_user : User) (db : DB)
    (unauthorized_detail : String) : Except HTTPError Bowl :=
  verify_bowl_access (findBowl db bowl_id) current_user "Bowl not found" unauthorized_detail

/-- `delete_bowl_ingredients` (`app/routers/bowls_api.py`, lines 56 to 63):
delete every line of the bowl. -/
def delete_bowl_ingredients (bowl_id : Nat) (db : DB) : DB :=
  { db with bowlIngredients := db.bowlIngredients.filter (fun bi => !(bi.bowl_id == bowl_id)) }

/-- The validated body of `POST /add_ingredient`
(`app/routers/bowls_api.py`, lines 83 to 86, class `AddIngredientRequest`). -/
structure AddIngredientRequest where
  bowl_id : Nat
  ingredient_id : Nat
  quantity : ℚ
deriving DecidableEq, Repr

/-- Request validation declared on `AddIngredientRequest`
(`bowl_id: Field(ge=1)`, `ingredient_id: Field(ge=1)`,
`quantity: Field(gt=0)`): the framework rejects a violating body with a
422 validation error before the handler runs. -/
def parseAddIngredient (bowl_id ingredient_id : Nat) (quantity : ℚ) :
    Except HTTPError AddIngredientRequest :=
  if 1 ≤ bowl_id ∧ 1 ≤ ingredient_id ∧ 0 < quantity then
    .ok ⟨bowl_id, ingredient_id, quantity⟩
  else .error ⟨422, "Unprocessable Entity"⟩

end BowlsApi

/-- The shared create-or-update step of `add_ingredient`
(`app/routers/bowls_api.py`, lines 191 to 210) and
`add_ingredient_to_bowl` (`app/routers/bowls_ui.py`, lines 550 to 567):
set the quantity of the first existing line for the pair in place. -/
def setQuantityFirst (bowl_id ingredient_id : Nat) (quantity : ℚ) :
    List BowlIngredient → List BowlIngredient
  | [] => []
  | bi :: rest =>
    if bi.bowl_id == bowl_id && bi.ingredient_id == ingredient_id then
      { bi with quantity := quantity } :: rest
    else bi :: setQuantityFirst bowl_id ingredient_id quantity rest

/-- The shared create-or-update step of `add_ingredient`
(`app/routers/bowls_api.py`, lines 191 to 210) and
`add_ingredient_to_bowl` (`app/routers/bowls_ui.py`, lines 550 to 567):
look up the first line for the (bowl, ingredient) pair; when present
update its quantity in place, otherwise insert a new line row. -/
def upsertLine (bowl_id ingredient_id : Nat) (quantity : ℚ) (db : DB) : DB :=
  match db.bowlIngredients.find?
      (fun bi => bi.bowl_id == bowl_id && bi.ingredient_id == ingredient_id) with
  | some _ =>
    { db with bowlIngredients := setQuantityFirst bowl_id ingredient_id quantity db.bowlIngredients }
  | none =>
    { db with
      bowlIngredients := db.bowlIngredients ++ [⟨db.nextLineId, bowl_id, ingredient_id, quantity⟩]
      nextLineId := db.nextLineId + 1 }

namespace BowlsApi

/-- Body of `BowlResponse` (`app/routers/bowls_api.py`, lines 102 to 106). -/
structure BowlResponse where
  id : Nat
  name : String
  user_id : Nat
  saved : Bool
deriving DecidableEq, Repr

/-- `PUT /{bowl_id}`, handler `update_bowl`
(`app/routers/bowls_api.py`, lines 138 to 161): verify access, strip
and store the new name, and answer with the bowl fields.  No nutrition
is recomputed by this handler. -/
def update_bowl (req_name : String) (bowl_id : Nat) (current_user : User) (db : DB) :
    Except HTTPError BowlResponse × DB :=
  match get_and_verify_bowl bowl_id current_user db "Not authorized to update this bowl" with
  | .error e => (.error e, db)
  | .ok bowl =>
    let cleaned := pyStrip req_name
    ( .ok ⟨bowl.id, cleaned, bowl.user_id, bowl.saved⟩,
      { db with bowls := db.bowls.map (fun b => if b.id == bowl.id then { b with name := cleaned } else b) } )

/-- `POST /save_bowl`, handler `save_bowl`
(`app/routers/bowls_api.py`, lines 163 to 178). -/
def save_bowl (bowl_id : Nat) (current_user : User) (db : DB) :
    Except HTTPError (Nat × Bool) × DB :=
  match get_and_verify_bowl bowl_id current_user db "Not authorized to save this bowl" with
  | .error e => (.error e, db)
  | .ok bowl =>
    ( .ok (bowl.id, true),
      { db with bowls := db.bowls.map (fun b => if b.id == bowl.id then { b with saved := true } else b) } )

/-- `POST /add_ingredient`, handler `add_ingredient`
(`app/routers/bowls_api.py`, lines 180 to 211): verify bowl access,
verify the ingredient exists, then create or update the line. -/
def add_ingredient (req : AddIngredientRequest) (current_user : User) (db : DB) :
    Except HTTPError Nat × DB :=
  match get_and_verify_bowl req.bowl_id current_user db "Not authorized to modify this bowl" with
  | .error e => (.error e, db)
  | .ok _ =>
    match findIngredient db req.ingredient_id with
    | none => (.error ⟨404, "Ingredient not found"⟩, db)
    | some _ => (.ok req.bowl_id, upsertLine req.bowl_id req.ingredient_id req.quantity db)

/-- `POST /remove_ingredient`, handler `remove_ingredient`
(`app/routers/bowls_api.py`, lines 213 to 240): 404 when the pair has
no line, otherwise delete the found row. -/
def remove_ingredient (bowl_id ingredient_id : Nat) (current_user : User) (db : DB) :
    Except HTTPError Nat × DB :=
  match get_and_verify_bowl bowl_id current_user db "Not authorized to modify this bowl" with
  | .error e => (.error e, db)
  | .ok _ =>
    match db.bowlIngredients.find?
        (fun bi => bi.bowl_id == bowl_id && bi.ingredient_id == ingredient_id) with
    | none => (.error ⟨404, "Ingredient not found in bowl"⟩, db)
    | some row =>
      ( .ok bowl_id,
        { db with bowlIngredients := db.bowlIngredients.filter (fun bi => !(bi.id == row.id)) } )

/-- `DELETE /{bowl_id}`, handler `delete_bowl`
(`app/routers/bowls_api.py`, lines 242 to 258): verify access, delete
all lines of the bowl, then delete the bowl. -/
def delete_bowl (bowl_id : Nat) (current_user : User) (db : DB) :
    Except HTTPError Unit × DB :=
  match get_and_verify_bowl bowl_id current_user db "Not authorized to delete this bowl" with
  | .error e => (.error e, db)
  | .ok _ =>
    let db2 := delete_bowl_ingredients bowl_id db
    (.ok (), { db2 with bowls := db2.bowls.filter (fun b => !(b.id == bowl_id)) })

end BowlsApi

namespace BowlsUi

/-- `verify_bowl_access` (`app/routers/bowls_ui.py`, lines 36 to 57):
404 when the bowl does not exist, and also 404 (for UI consistency, per
the source comment) when it belongs to another user. -/
def verify_bowl_access (bowl : Option Bowl) (current_user : User)
    (not_found_detail unauthorized_detail : String) : Except HTTPError Bowl :=
  match bowl with
  | none => .error ⟨404, not_found_detail⟩
  | some b =>
    if b.user_id ≠ current_user.id then .error ⟨404, unauthorized_detail⟩
    else .ok b

/-- The verify step as every UI handler invokes it, with the default
detail strings of `verify_bowl_access`. -/
def verifyDefault (bowl : Option Bowl) (current_user : User) : Except HTTPError Bowl :=
  verify_bowl_access bowl current_user "Bowl not found" "Not authorized to access this bowl"

/-- Python truthiness of the optional `bowl_id` form and query fields:
`if bowl_id:` is false for both `None` and `0`. -/
def truthyId : Option Nat → Bool
  | none => false
  | some n => n ≠ 0

/-- `GET /bowl`, handler `get_bowl_view`
(`app/routers/bowls_ui.py`, lines 427 to 462): resolve the requested
bowl (or the working bowl when no truthy id is given), then aggregate
its nutrition for the current user. -/
def get_bowl_view (bowl_id : Option Nat) (current_user : User) (db : DB) :
    Except HTTPError (Bowl × NutritionResult) × DB :=
  if truthyId bowl_id then
    match verifyDefault (findBowl db (bowl_id.getD 0)) current_user with
    | .error e => (.error e, db)
    | .ok bowl => (.ok (bowl, calculate_nutrition bowl.id current_user.id db), db)
  else
    let (bowl, db1) := get_or_create_unsaved_bowl current_user.id db
    (.ok (bowl, calculate_nutrition bowl.id current_user.id db1), db1)

/-- `POST /bowl/add_ingredient`, handler `add_ingredient_to_bowl`
(`app/routers/bowls_ui.py`, lines 528 to 578): resolve the bowl, 404
when the ingredient does not exist, then create or update the line and
aggregate.  Note that the handler never validates the quantity. -/
def add_ingredient_to_bowl (bowl_id : Option Nat) (ingredient_id : Nat) (quantity : ℚ)
    (current_user : User) (db : DB) :
    Except HTTPError (Bowl × NutritionResult) × DB :=
  let resolved : Except HTTPError (Bowl × DB) :=
    if truthyId bowl_id then
      match verifyDefault (findBowl db (bowl_id.getD 0)) current_user with
      | .error e => .error e
      | .ok bowl => .ok (bowl, db)
    else .ok (get_or_create_unsaved_bowl current_user.id db)
  match resolved with
  | .error e => (.error e, db)
  | .ok (bowl, db1) =>
    match findIngredient db1 ingredient_id with
    | none => (.error ⟨404, "Ingredient not found"⟩, db1)
    | some _ =>
      let db2 := upsertLine bowl.id ingredient_id quantity db1
      (.ok (bowl, calculate_nutrition bowl.id current_user.id db2), db2)

/-- `POST /bowl/remove_ingredient`, handler `remove_ingredient_from_bowl`
(`app/routers/bowls_ui.py`, lines 581 to 612): delete the line when it
exists (no error when it does not), then aggregate. -/
def remove_ingredient_from_bowl (bowl_id ingredient_id : Nat) (current_user : User) (db : DB) :
    Except HTTPError (Bowl × NutritionResult) × DB :=
  match verifyDefault (findBowl db bowl_id) current_user with
  | .error e => (.error e, db)
  | .ok bowl =>
    let db1 :=
      match db.bowlIngredients.find?
          (fun bi => bi.bowl_id == bowl_id && bi.ingredient_id == ingredient_id) with
      | none => db
      | some row =>
        { db with bowlIngredients := db.bowlIngredients.filter (fun bi => !(bi.id == row.id)) }
    (.ok (bowl, calculate_nutrition bowl_id current_user.id db1), db1)

/-- `POST /bowl/update_name`, handler `update_bowl_name`
(`app/routers/bowls_ui.py`, lines 634 to 663): verify access, strip the
submitted name (falling back to "My Bowl" when blank), commit the
rename, and then call `calculate_nutrition(bowl.id, session)`.  That
call passes the session in place of `user_id` and omits the required
`session` argument, so Python raises `TypeError` and the request ends
in a 500 response after the rename was committed; the aggregator is
never run for the acting user. -/
def update_bowl_name (bowl_id : Nat) (req_name : String) (current_user : User) (db : DB) :
    Except HTTPError (Bowl × NutritionResult) × DB :=
  match verifyDefault (findBowl db bowl_id) current_user with
  | .error e => (.error e, db)
  | .ok bowl =>
    let cleaned0 := pyStrip req_name
    let cleaned := if cleaned0 = "" then "My Bowl" else cleaned0
    let db1 :=
      { db with bowls := db.bowls.map (fun b => if b.id == bowl.id then { b with name := cleaned } else b) }
    (.error ⟨500, "TypeError: calculate_nutrition() missing 1 required positional argument"⟩, db1)

/-- `POST /bowl/save`, handler `save_bowl_htmx`
(`app/routers/bowls_ui.py`, lines 695 to 735): verify access, mark the
bowl saved, and aggregate for the current user. -/
def save_bowl_htmx (bowl_id : Nat) (current_user : User) (db : DB) :
    Except HTTPError (Bowl × NutritionResult × List Bowl) × DB :=
  match verifyDefault (findBowl db bowl_id) current_user with
  | .error e => (.error e, db)
  | .ok bowl =>
    let saved : Bowl := { bowl with saved := true }
    let db1 :=
      { db with bowls := db.bowls.map (fun b => if b.id == bowl.id then { b with saved := true } else b) }
    ( .ok (saved, calculate_nutrition bowl.id current_user.id db1, get_saved_bowls current_user.id db1),
      db1 )

/-- `POST /bowl/delete`, handler `delete_bowl`
(`app/routers/bowls_ui.py`, lines 482 to 525): verify access, delete
the lines of the bowl, delete the bowl, and answer with the remaining
saved bowls. -/
def delete_bowl (bowl_id : Nat) (current_user : User) (db : DB) :
    Except HTTPError (List Bowl) × DB :=
  match verifyDefault (findBowl db bowl_id) current_user with
  | .error e => (.error e, db)
  | .ok _ =>
    let db1 :=
      { db with bowlIngredients := db.bowlIngredients.filter (fun bi => !(bi.bowl_id == bowl_id)) }
    let db2 := { db1 with bowls := db1.bowls.filter (fun b => !(b.id == bowl_id)) }
    (.ok (get_saved_bowls current_user.id db2), db2)

end BowlsUi

namespace Auth

/-- `get_current_user` (`app/auth.py`, lines 18 to 35): resolve the
acting user from the plaintext `username` cookie alone.  A missing (or
empty, since `if not username:` also catches the empty string) cookie
yields 401 "Not authenticated"; a cookie that matches no stored
username yields 401 "User not found"; otherwise the matching user is
returned.  No secret or token is involved anywhere. -/
def get_current_user (cookie : Option String) (users : List User) : Except HTTPError User :=
  match cookie with
  | none => .error ⟨401, "Not authenticated"⟩
  | some username =>
    if username = "" then .error ⟨401, "Not authenticated"⟩
    else
      match users.find? (fun u => u.username == username) with
      | none => .error ⟨401, "User not found"⟩
      | some u => .ok u

/-- `get_optional_user` (`app/auth.py`, lines 38 to 46): same lookup as
`get_current_user` but yielding no user instead of failing. -/
def get_optional_user (cookie : Option String) (users : List User) : Option User :=
  match cookie with
  | none => none
  | some username =>
    if username = "" then none
    else users.find? (fun u => u.username == username)

end Auth

/-! Spec-side vocabulary for the aggregation claims: the lines of a
bowl, the lines retained after the deleted-catalog-entry check, and the
raw (unrounded) per-line nutrient values resolved override-first. -/

/-- All line rows of the bowl, in table order. -/
def bowlLines (bowl_id : Nat) (db : DB) : List BowlIngredient :=
  db.bowlIngredients.filter (fun bi => bi.bowl_id == bowl_id)

/-- Pair each line of the list with its catalog ingredient, dropping
lines whose ingredient is absent from the catalog. -/
def retainedOf (db : DB) (l : List BowlIngredient) : List (BowlIngredient × Ingredient) :=
  l.filterMap (fun bi => (findIngredient db bi.ingredient_id).map (fun ing => (bi, ing)))

/-- The retained lines of a bowl: its lines minus those whose
ingredient no longer exists in the catalog. -/
def retainedLines (bowl_id : Nat) (db : DB) : List (BowlIngredient × Ingredient) :=
  retainedOf db (bowlLines bowl_id db)

/-- The per-unit nutrient values the spec prescribes for a retained
line: the override of (user, ingredient) when one exists, else the
ingredient defaults. -/
def resolvedPerUnit (user_id : Nat) (db : DB) (p : BowlIngredient × Ingredient) : Nutrition :=
  match findOverride db user_id p.1.ingredient_id with
  | some n => ⟨n.calories, n.protein, n.fiber, n.sugar⟩
  | none => ⟨p.2.calories, p.2.protein, p.2.fiber, p.2.sugar⟩

/-- Raw per-line calories: resolved per-unit value times quantity. -/
def rawCalories (user_id : Nat) (db : DB) (p : BowlIngredient × Ingredient) : ℚ :=
  (resolvedPerUnit user_id db p).calories * p.1.quantity

/-- Raw per-line protein: resolved per-unit value times quantity. -/
def rawProtein (user_id : Nat) (db : DB) (p : BowlIngredient × Ingredient) : ℚ :=
  (resolvedPerUnit user_id db p).protein * p.1.quantity

/-- Raw per-line fiber: resolved per-unit value times quantity. -/
def rawFiber (user_id : Nat) (db : DB) (p : BowlIngredient × Ingredient) : ℚ :=
  (resolvedPerUnit user_id db p).fiber * p.1.quantity

/-- Raw per-line sugar: resolved per-unit value times quantity. -/
def rawSugar (user_id : Nat) (db : DB) (p : BowlIngredient × Ingredient) : ℚ :=
  (resolvedPerUnit user_id db p).sugar * p.1.quantity

/-- Full-precision sum of the raw calories of the retained lines. -/
def rawCaloriesSum (bowl_id user_id : Nat) (db : DB) : ℚ :=
  ((retainedLines bowl_id db).map (rawCalories user_id db)).sum

/-- Full-precision sum of the raw protein of the retained lines. -/
def rawProteinSum (bowl_id user_id : Nat) (db : DB) : ℚ :=
  ((retainedLines bowl_id db).map (rawProtein user_id db)).sum

/-- Full-precision sum of the raw fiber of the retained lines. -/
def rawFiberSum (bowl_id user_id : Nat) (db : DB) : ℚ :=
  ((retainedLines bowl_id db).map (rawFiber user_id db)).sum

/-- Full-precision sum of the raw sugar of the retained lines. -/
def rawSugarSum (bowl_id user_id : Nat) (db : DB) : ℚ :=
  ((retainedLines bowl_id db).map (rawSugar user_id db)).sum

/-- When the ingredient of a line is present in the catalog,
`get_ingredient_nutrition` resolves exactly to override-else-default. -/
lemma get_ingredient_nutrition_of_found (user_id : Nat) (db : DB)
    (bi : BowlIngredient) (ing : Ingredient)
    (h : findIngredient db bi.ingredient_id = some ing) :
    get_ingredient_nutrition bi.ingredient_id user_id db = resolvedPerUnit user_id db (bi, ing) := by
  unfold get_ingredient_nutrition resolvedPerUnit
  cases hov : findOverride db user_id bi.ingredient_id with
  | some n => rfl
  | none => rw [h]

/-- Characterization of the aggregation loop: it adds the raw values of
the retained lines to the running totals and appends their per-line
dicts. -/
lemma nutritionLoop_eq (user_id : Nat) (db : DB) (l : List BowlIngredient) :
    ∀ acc : AggAcc,
    nutritionLoop user_id db acc l =
      { total_calories := acc.total_calories + ((retainedOf db l).map (rawCalories user_id db)).sum
        total_protein := acc.total_protein + ((retainedOf db l).map (rawProtein user_id db)).sum
        total_fiber := acc.total_fiber + ((retainedOf db l).map (rawFiber user_id db)).sum
        total_sugar := acc.total_sugar + ((retainedOf db l).map (rawSugar user_id db)).sum
        ingredients_list := acc.ingredients_list
          ++ (retainedOf db l).map (fun p => lineOutput user_id db p.1 p.2) } := by
  induction l with
  | nil => intro acc; simp [nutritionLoop, retainedOf]
  | cons bi rest ih =>
    intro acc
    cases h : findIngredient db bi.ingredient_id with
    | none =>
      simp only [nutritionLoop, h]
      rw [ih]
      simp [retainedOf, List.filterMap_cons, h]
    | some ing =>
      simp only [nutritionLoop, h]
      rw [ih]
      have hres := get_ingredient_nutrition_of_found user_id db bi ing h
      simp only [retainedOf, List.filterMap_cons, h, Option.map_some', List.map_cons,
        List.sum_cons, hres, rawCalories, rawProtein, rawFiber, rawSugar,
        List.append_assoc, List.singleton_append, AggAcc.mk.injEq]
      exact ⟨by ring, by ring, by ring, by ring, trivial⟩

/-- Closed form of `calculate_nutrition`: the output lines are exactly
the retained lines in order, each rendered by `lineOutput`; the totals
are the rounded full-precision sums; the tags classify the unrounded
sums. -/
lemma calculate_nutrition_eq (bowl_id user_id : Nat) (db : DB) :
    calculate_nutrition bowl_id user_id db =
      { ingredients := (retainedLines bowl_id db).map (fun p => lineOutput user_id db p.1 p.2)
        total_calories := round2 (rawCaloriesSum bowl_id user_id db)
        total_protein := round2 (rawProteinSum bowl_id user_id db)
        total_fiber := round2 (rawFiberSum bowl_id user_id db)
        total_sugar := round2 (rawSugarSum bowl_id user_id db)
        tags := computeTags (rawProteinSum bowl_id user_id db)
          (rawFiberSum bowl_id user_id db) (rawSugarSum bowl_id user_id db) } := by
  simp only [calculate_nutrition]
  rw [nutritionLoop_eq]
  simp only [retainedLines, rawCaloriesSum, rawProteinSum, rawFiberSum, rawSugarSum,
    retainedOf, bowlLines, zero_add, List.nil_append]

/-- Membership in the retained lines pins the catalog lookup. -/
lemma retainedLines_mem (bowl_id : Nat) (db : DB) (p : BowlIngredient × Ingredient)
    (hp : p ∈ retainedLines bowl_id db) :
    findIngredient db p.1.ingredient_id = some p.2 := by
  rcases List.mem_filterMap.mp hp with ⟨bi, _, hmap⟩
  rcases Option.map_eq_some'.mp hmap with ⟨ing, hfind, heq⟩
  cases heq
  exact hfind

/-- Rounding fixes zero. -/
lemma round2_zero : round2 0 = 0 := by
  norm_num [round2, roundHalfEvenInt]

/-! Concrete fixtures used by the witnesses: two users, a small
catalog, one bowl of user 1 holding two units of Banana. -/

/-- Witness fixture: first user. -/
def uAlice : User := ⟨1, "alice", "h1", "Alice"⟩

/-- Witness fixture: second user. -/
def uBob : User := ⟨2, "bob", "h2", "Bob"⟩

/-- Witness fixture: a Banana catalog row with integral nutrition. -/
def ingBanana : Ingredient := ⟨1, "Banana", 100, 1, 3, 14, none, none, false⟩

/-- Witness fixture: a Honey catalog row. -/
def ingHoney : Ingredient := ⟨2, "Honey", 64, 0, 0, 17, none, none, true⟩

/-- Witness fixture: the line putting two units of Banana in bowl 1. -/
def liBanana : BowlIngredient := ⟨1, 1, 1, 2⟩

/-- Witness fixture database: bowl 1 is the unsaved bowl of user 1 and
holds two units of Banana. -/
def testDb : DB :=
  ⟨[uAlice, uBob], [ingBanana, ingHoney], [⟨1, "My Bowl", 1, false⟩], [liBanana], [], 2, 2⟩

/-- Claim C1: for every bowl and acting user, each retained line of the
aggregation output carries the (override-else-default) per-unit values
times the line quantity, rounded to two decimals only in the reported
figure; a line whose ingredient is missing from the catalog is dropped
from the output and from the totals; and each total is the rounding of
the full-precision sum of the retained raw per-line values. -/
theorem calculate_nutrition_per_line_and_totals (db : DB) (bowl_id user_id : Nat) :
    (calculate_nutrition bowl_id user_id db).ingredients
        = (retainedLines bowl_id db).map (fun p => lineOutput user_id db p.1 p.2)
    ∧ (calculate_nutrition bowl_id user_id db).total_calories
        = round2 (rawCaloriesSum bowl_id user_id db)
    ∧ (calculate_nutrition bowl_id user_id db).total_protein
        = round2 (rawProteinSum bowl_id user_id db)
    ∧ (calculate_nutrition bowl_id user_id db).total_fiber
        = round2 (rawFiberSum bowl_id user_id db)
    ∧ (calculate_nutrition bowl_id user_id db).total_sugar
        = round2 (rawSugarSum bowl_id user_id db)
    ∧ ∀ p ∈ retainedLines bowl_id db,
        (lineOutput user_id db p.1 p.2).calories = round2 (rawCalories user_id db p)
        ∧ (lineOutput user_id db p.1 p.2).protein = round2 (rawProtein user_id db p)
        ∧ (lineOutput user_id db p.1 p.2).fiber = round2 (rawFiber user_id db p)
        ∧ (lineOutput user_id db p.1 p.2).sugar = round2 (rawSugar user_id db p) := by
  refine ⟨?_, ?_, ?_, ?_, ?_, ?_⟩
  · rw [calculate_nutrition_eq]
  · rw [calculate_nutrition_eq]
  · rw [calculate_nutrition_eq]
  · rw [calculate_nutrition_eq]
  · rw [calculate_nutrition_eq]
  · intro p hp
    have h := retainedLines_mem bowl_id db p hp
    have hres := get_ingredient_nutrition_of_found user_id db p.1 p.2 h
    refine ⟨?_, ?_, ?_, ?_⟩ <;>
      simp [lineOutput, rawCalories, rawProtein, rawFiber, rawSugar, hres]

/-- Witness for C1: in the fixture database the Banana line is
retained, and its reported calories are the rounding of the resolved
per-unit calories times its quantity. -/
theorem calculate_nutrition_per_line_and_totals_witness :
    (liBanana, ingBanana) ∈ retainedLines 1 testDb
    ∧ (lineOutput 1 testDb liBanana ingBanana).calories
        = round2 (rawCalories 1 testDb (liBanana, ingBanana)) :=
  ⟨by decide,
   ((calculate_nutrition_per_line_and_totals testDb 1 1).2.2.2.2.2
     (liBanana, ingBanana) (by decide)).1⟩

/-- Claim C3: the aggregation output always carries exactly three tags,
in the order protein, fiber, sugar, classified on the unrounded totals
with inclusive lower bounds evaluated highest tier first, and a bowl
with no lines yields all-zero totals and the three "Low" tags. -/
theorem calculate_nutrition_tags_spec (db : DB) (bowl_id user_id : Nat) :
    (calculate_nutrition bowl_id user_id db).tags =
      [ if rawProteinSum bowl_id user_id db ≥ 20 then "High Protein"
        else if rawProteinSum bowl_id user_id db ≥ 10 then "Moderate Protein"
        else "Low Protein",
        if rawFiberSum bowl_id user_id db ≥ 6 then "High Fiber"
        else if rawFiberSum bowl_id user_id db ≥ 3 then "Moderate Fiber"
        else "Low Fiber",
        if rawSugarSum bowl_id user_id db ≥ 20 then "High Sugar"
        else if rawSugarSum bowl_id user_id db ≥ 10 then "Moderate Sugar"
        else "Low Sugar" ]
    ∧ (bowlLines bowl_id db = [] →
        (calculate_nutrition bowl_id user_id db).total_calories = 0
        ∧ (calculate_nutrition bowl_id user_id db).total_protein = 0
        ∧ (calculate_nutrition bowl_id user_id db).total_fiber = 0
        ∧ (calculate_nutrition bowl_id user_id db).total_sugar = 0
        ∧ (calculate_nutrition bowl_id user_id db).tags
            = ["Low Protein", "Low Fiber", "Low Sugar"]) := by
  constructor
  · rw [calculate_nutrition_eq]; rfl
  · intro h
    have hret : retainedLines bowl_id db = [] := by
      rw [retainedLines, h]; rfl
    have hzero : rawCaloriesSum bowl_id user_id db = 0 ∧ rawProteinSum bowl_id user_id db = 0
        ∧ rawFiberSum bowl_id user_id db = 0 ∧ rawSugarSum bowl_id user_id db = 0 := by
      simp [rawCaloriesSum, rawProteinSum, rawFiberSum, rawSugarSum, hret]
    rw [calculate_nutrition_eq]
    refine ⟨?_, ?_, ?_, ?_, ?_⟩
    · rw [hzero.1, round2_zero]
    · rw [hzero.2.1, round2_zero]
    · rw [hzero.2.2.1, round2_zero]
    · rw [hzero.2.2.2, round2_zero]
    · rw [hzero.2.1, hzero.2.2.1, hzero.2.2.2]
      norm_num [computeTags]

/-- Witness for C3: bowl 2 has no lines in the fixture database, and
aggregating it yields the three "Low" tags. -/
theorem calculate_nutrition_tags_spec_witness :
    (calculate_nutrition 2 1 testDb).tags = ["Low Protein", "Low Fiber", "Low Sugar"] :=
  (((calculate_nutrition_tags_spec testDb 2 1).2) (by decide)).2.2.2.2

/-- Claim C4: every retained line's unit label is `unitFor` of the
ingredient name and quantity; `unitFor` is the fixed ordered rule table
of case-insensitive substring tests, first match winning, singular
exactly when the quantity is one; and the three examples of the spec
hold, in particular "Strawberry Yogurt" matches the yogurt rule and not
the strawberry rule. -/
theorem unit_label_rule_table :
    (∀ (db : DB) (bowl_id user_id : Nat), ∀ p ∈ retainedLines bowl_id db,
        (lineOutput user_id db p.1 p.2).unit = unitFor p.2.name p.1.quantity)
    ∧ (∀ (name : String) (q : ℚ),
        (strHas name "yogurt" = true →
          unitFor name q = if q = 1 then "cup" else "cups")
        ∧ (strHas name "yogurt" = false → strHas name "honey" = true →
          unitFor name q = "tbsp")
        ∧ (strHas name "yogurt" = false → strHas name "honey" = false →
          strHas name "peanut" = true → unitFor name q = "tbsp")
        ∧ (strHas name "yogurt" = false → strHas name "honey" = false →
          strHas name "peanut" = false → strHas name "nuts" = true →
          unitFor name q = if q = 1 then "cup" else "cups")
        ∧ (strHas name "yogurt" = false → strHas name "honey" = false →
          strHas name "peanut" = false → strHas name "nuts" = false →
          strHas name "strawberry" = true →
          unitFor name q = if q = 1 then "strawberry" else "strawberries")
        ∧ (strHas name "yogurt" = false → strHas name "honey" = false →
          strHas name "peanut" = false → strHas name "nuts" = false →
          strHas name "strawberry" = false → strHas name "blueberr" = true →
          unitFor name q = if q = 1 then "cup" else "cups")
        ∧ (strHas name "yogurt" = false → strHas name "honey" = false →
          strHas name "peanut" = false → strHas name "nuts" = false →
          strHas name "strawberry" = false → strHas name "blueberr" = false →
          strHas name "banana" = true →
          unitFor name q = if q = 1 then "medium banana" else "medium bananas")
        ∧ (strHas name "yogurt" = false → strHas name "honey" = false →
          strHas name "peanut" = false → strHas name "nuts" = false →
          strHas name "strawberry" = false → strHas name "blueberr" = false →
          strHas name "banana" = false → unitFor name q = ""))
    ∧ unitFor "Strawberry Yogurt" 2 = "cups"
    ∧ unitFor "Strawberry" 1 = "strawberry"
    ∧ (∀ q : ℚ, unitFor "Honey" q = "tbsp") := by
  refine ⟨?_, ?_, ?_, ?_, ?_⟩
  · intro db bowl_id user_id p _
    rfl
  · intro name q
    refine ⟨?_, ?_, ?_, ?_, ?_, ?_, ?_, ?_⟩ <;>
      · intros
        simp only [unitFor, *]
        simp
  · decide
  · decide
  · intro q
    have hy : strHas "Honey" "yogurt" = false := by decide
    have hh : strHas "Honey" "honey" = true := by decide
    simp [unitFor, hy, hh]

/-- Witness for C4: the Greek Yogurt name matches the yogurt rule, so
two units are labelled "cups". -/
theorem unit_label_rule_table_witness :
    strHas "Greek Yogurt" "yogurt" = true
    ∧ unitFor "Greek Yogurt" 2 = if (2 : ℚ) = 1 then "cup" else "cups" :=
  ⟨by decide, (unit_label_rule_table.2.1 "Greek Yogurt" 2).1 (by decide)⟩

/-- Searching an appended list when the first part has no match. -/
lemma find?_append_none {α : Type} (p : α → Bool) (l1 l2 : List α)
    (h : l1.find? p = none) : (l1 ++ l2).find? p = l2.find? p := by
  rw [List.find?_append, h, Option.none_or]

/-- Claim C5: `get_or_create_unsaved_bowl` returns the existing
unsaved bowl of the user untouched when one exists; otherwise it
appends exactly one new bowl named "My Bowl" with `saved = false` for
that user and returns it; and a repeated call with no intervening save
returns the same bowl and leaves the database unchanged. -/
theorem get_or_create_unsaved_bowl_spec (db : DB) (user_id : Nat) :
    (∀ b, db.bowls.find? (fun bl => bl.user_id == user_id && bl.saved == false) = some b →
        get_or_create_unsaved_bowl user_id db = (b, db))
    ∧ (db.bowls.find? (fun bl => bl.user_id == user_id && bl.saved == false) = none →
        (get_or_create_unsaved_bowl user_id db).1.name = "My Bowl"
        ∧ (get_or_create_unsaved_bowl user_id db).1.user_id = user_id
        ∧ (get_or_create_unsaved_bowl user_id db).1.saved = false
        ∧ (get_or_create_unsaved_bowl user_id db).2.bowls
            = db.bowls ++ [(get_or_create_unsaved_bowl user_id db).1])
    ∧ get_or_create_unsaved_bowl user_id (get_or_create_unsaved_bowl user_id db).2
        = get_or_create_unsaved_bowl user_id db := by
  refine ⟨?_, ?_, ?_⟩
  · intro b hb
    simp only [get_or_create_unsaved_bowl, hb]
  · intro h
    simp only [get_or_create_unsaved_bowl]
    rw [h]
    exact ⟨rfl, rfl, rfl, rfl⟩
  · cases hf : db.bowls.find? (fun bl => bl.user_id == user_id && bl.saved == false) with
    | some b =>
      simp only [get_or_create_unsaved_bowl, hf]
    | none =>
      have hnew : ((db.bowls ++ [(⟨db.nextBowlId, "My Bowl", user_id, false⟩ : Bowl)]).find?
          (fun bl => bl.user_id == user_id && bl.saved == false))
          = some ⟨db.nextBowlId, "My Bowl", user_id, false⟩ := by
        rw [find?_append_none _ _ _ hf]
        simp [List.find?_cons]
      simp only [get_or_create_unsaved_bowl, hf]
      simp only [get_or_create_unsaved_bowl, hnew]

/-- Witness for C5: in the fixture database user 2 has no unsaved bowl,
and the repeated call agrees with the single call. -/
theorem get_or_create_unsaved_bowl_spec_witness :
    testDb.bowls.find? (fun bl => bl.user_id == 2 && bl.saved == false) = none
    ∧ get_or_create_unsaved_bowl 2 (get_or_create_unsaved_bowl 2 testDb).2
        = get_or_create_unsaved_bowl 2 testDb :=
  ⟨by decide, (get_or_create_unsaved_bowl_spec testDb 2).2.2⟩

/-- The lines of a bowl-ingredient pair, in table order. -/
def pairLines (bowl_id ingredient_id : Nat) (db : DB) : List BowlIngredient :=
  db.bowlIngredients.filter (fun bi => bi.bowl_id == bowl_id && bi.ingredient_id == ingredient_id)

/-- Filtering for the updated pair after an in-place quantity update:
only the first matching line changes, and only in its quantity. -/
lemma setQuantityFirst_filter (b i : Nat) (q : ℚ) (l : List BowlIngredient) :
    (setQuantityFirst b i q l).filter (fun bi => bi.bowl_id == b && bi.ingredient_id == i)
      = match l.filter (fun bi => bi.bowl_id == b && bi.ingredient_id == i) with
        | [] => []
        | y :: rest => { y with quantity := q } :: rest := by
  induction l with
  | nil => rfl
  | cons z l ih =>
    by_cases hz : (z.bowl_id == b && z.ingredient_id == i) = true
    · simp [setQuantityFirst, List.filter_cons, hz]
    · simp only [setQuantityFirst, hz, if_false, List.filter_cons,
        Bool.false_eq_true, ite_false]
      rw [ih]

/-- A line matching the mutated pair cannot match a different pair. -/
lemma pair_disjoint (b i b' i' : Nat) (hne : b' ≠ b ∨ i' ≠ i) (z : BowlIngredient)
    (hz : (z.bowl_id == b && z.ingredient_id == i) = true) :
    (z.bowl_id == b' && z.ingredient_id == i') = false := by
  simp only [Bool.and_eq_true, beq_iff_eq] at hz
  rcases hne with h | h <;>
    simp [hz.1, hz.2, beq_iff_eq, h, Ne.symm h]

/-- An in-place quantity update of one pair leaves every other pair's
lines untouched. -/
lemma setQuantityFirst_filter_other (b i b' i' : Nat) (q : ℚ)
    (hne : b' ≠ b ∨ i' ≠ i) (l : List BowlIngredient) :
    (setQuantityFirst b i q l).filter (fun bi => bi.bowl_id == b' && bi.ingredient_id == i')
      = l.filter (fun bi => bi.bowl_id == b' && bi.ingredient_id == i') := by
  induction l with
  | nil => rfl
  | cons z l ih =>
    by_cases hz : (z.bowl_id == b && z.ingredient_id == i) = true
    · have hz' := pair_disjoint b i b' i' hne z hz
      simp [setQuantityFirst, hz, List.filter_cons, hz']
    · simp only [setQuantityFirst, hz, if_false, List.filter_cons,
        Bool.false_eq_true, ite_false]
      by_cases hz' : (z.bowl_id == b' && z.ingredient_id == i') = true
      · simp [hz', ih]
      · simp [hz', ih]

/-- Core of the line upsert: starting from a state holding at most one
line for the pair, the upsert leaves exactly one line for the pair,
bearing the requested quantity. -/
lemma upsertLine_pairLines (db : DB) (b i : Nat) (q : ℚ)
    (h : (pairLines b i db).length ≤ 1) :
    ∃ x, pairLines b i (upsertLine b i q db) = [x]
      ∧ x.bowl_id = b ∧ x.ingredient_id = i ∧ x.quantity = q := by
  cases hf : db.bowlIngredients.find?
      (fun bi => bi.bowl_id == b && bi.ingredient_id == i) with
  | none =>
    have hnil : db.bowlIngredients.filter
        (fun bi => bi.bowl_id == b && bi.ingredient_id == i) = [] := by
      rw [List.filter_eq_nil_iff]
      intro a ha
      exact List.find?_eq_none.mp hf a ha
    refine ⟨⟨db.nextLineId, b, i, q⟩, ?_, rfl, rfl, rfl⟩
    simp only [pairLines, upsertLine, hf]
    rw [List.filter_append, hnil]
    simp
  | some x =>
    have hpx := List.find?_some hf
    have hmem : x ∈ db.bowlIngredients.filter
        (fun bi => bi.bowl_id == b && bi.ingredient_id == i) :=
      List.mem_filter.mpr ⟨List.mem_of_find?_eq_some hf, hpx⟩
    have hcase := setQuantityFirst_filter b i q db.bowlIngredients
    rcases hflt : db.bowlIngredients.filter
        (fun bi => bi.bowl_id == b && bi.ingredient_id == i) with _ | ⟨y, rest⟩
    · rw [hflt] at hmem; cases hmem
    · have hrest : rest = [] := by
        have := h
        rw [pairLines, hflt] at this
        simpa using this
      subst hrest
      have hy : (y.bowl_id == b && y.ingredient_id == i) = true := by
        have : y ∈ db.bowlIngredients.filter
            (fun bi => bi.bowl_id == b && bi.ingredient_id == i) := by
          rw [hflt]; exact List.mem_singleton.mpr rfl
        exact (List.mem_filter.mp this).2
      simp only [Bool.and_eq_true, beq_iff_eq] at hy
      refine ⟨{ y with quantity := q }, ?_, hy.1, hy.2, rfl⟩
      simp only [pairLines, upsertLine, hf]
      rw [hcase, hflt]

/-- The upsert of one pair leaves every other pair's lines untouched. -/
lemma upsertLine_pairLines_other (db : DB) (b i b' i' : Nat) (q : ℚ)
    (hne : b' ≠ b ∨ i' ≠ i) :
    pairLines b' i' (upsertLine b i q db) = pairLines b' i' db := by
  cases hf : db.bowlIngredients.find?
      (fun bi => bi.bowl_id == b && bi.ingredient_id == i) with
  | none =>
    have hnew : (((⟨db.nextLineId, b, i, q⟩ : BowlIngredient).bowl_id == b'
        && (⟨db.nextLineId, b, i, q⟩ : BowlIngredient).ingredient_id == i')) = false :=
      pair_disjoint b i b' i' hne _ (by simp)
    simp only [pairLines, upsertLine, hf]
    rw [List.filter_append]
    simp [hnew]
  | some x =>
    simp only [pairLines, upsertLine, hf]
    exact setQuantityFirst_filter_other b i b' i' q hne db.bowlIngredients

/-- Claim C6: starting from a state with at most one line for the
(bowl, ingredient) pair, an upsert leaves exactly one line for the
pair and does not touch any other pair, and two successive upserts
with differing quantities leave exactly one line bearing the second
quantity. -/
theorem upsert_line_uniqueness (db : DB) (b i : Nat) (q1 q2 : ℚ)
    (h : (pairLines b i db).length ≤ 1) (hq : q1 ≠ q2) :
    (pairLines b i (upsertLine b i q1 db)).length = 1
    ∧ (∀ b' i', b' ≠ b ∨ i' ≠ i →
        pairLines b' i' (upsertLine b i q1 db) = pairLines b' i' db)
    ∧ ∃ x, pairLines b i (upsertLine b i q2 (upsertLine b i q1 db)) = [x]
        ∧ x.quantity = q2 ∧ x.bowl_id = b ∧ x.ingredient_id = i := by
  obtain ⟨x1, hx1, _, _, _⟩ := upsertLine_pairLines db b i q1 h
  refine ⟨by rw [hx1]; rfl, ?_, ?_⟩
  · intro b' i' hne
    exact upsertLine_pairLines_other db b i b' i' q1 hne
  · have h1 : (pairLines b i (upsertLine b i q1 db)).length ≤ 1 := by
      rw [hx1]; exact le_refl 1
    obtain ⟨x2, hx2, hb2, hi2, hq2⟩ := upsertLine_pairLines (upsertLine b i q1 db) b i q2 h1
    exact ⟨x2, hx2, hq2, hb2, hi2⟩

/-- Witness for C6: the fixture database holds one line for bowl 1 and
ingredient 1; after upserting quantity 3 and then quantity 5 exactly
one line remains and it bears quantity 5. -/
theorem upsert_line_uniqueness_witness :
    (pairLines 1 1 testDb).length ≤ 1
    ∧ ∃ x, pairLines 1 1 (upsertLine 1 1 5 (upsertLine 1 1 3 testDb)) = [x]
        ∧ x.quantity = 5 ∧ x.bowl_id = 1 ∧ x.ingredient_id = 1 :=
  ⟨by decide, (upsert_line_uniqueness testDb 1 1 3 5 (by decide) (by decide)).2.2⟩

/-- Denied access for a bowl-scoped request: the bowl id resolves to
nothing, or it resolves to a bowl owned by a different user. -/
def accessDenied (db : DB) (bowl_id : Nat) (u : User) : Prop :=
  findBowl db bowl_id = none ∨ ∃ b, findBowl db bowl_id = some b ∧ b.user_id ≠ u.id

/-- A handler outcome that is an error and leaves the database as it
was. -/
def failsCleanly {α : Type} (out : Except HTTPError α × DB) (db : DB) : Prop :=
  out.2 = db ∧ ∃ e, out.1 = Except.error e

/-- Equality of `Except` values is decidable when it is on both sides. -/
instance decEqExcept {ε α : Type} [DecidableEq ε] [DecidableEq α] :
    DecidableEq (Except ε α)
  | .error e1, .error e2 =>
    if h : e1 = e2 then isTrue (by rw [h])
    else isFalse (by intro hc; cases hc; exact h rfl)
  | .error _, .ok _ => isFalse (by intro hc; cases hc)
  | .ok _, .error _ => isFalse (by intro hc; cases hc)
  | .ok a1, .ok a2 =>
    if h : a1 = a2 then isTrue (by rw [h])
    else isFalse (by intro hc; cases hc; exact h rfl)

/-- Denied access makes the API get-and-verify step fail. -/
lemma get_and_verify_denied (db : DB) (u : User) (bid : Nat) (d : String)
    (h : accessDenied db bid u) :
    ∃ e, BowlsApi.get_and_verify_bowl bid u db d = .error e := by
  rcases h with h | ⟨b, hb, hne⟩
  · exact ⟨⟨404, "Bowl not found"⟩,
      by simp [BowlsApi.get_and_verify_bowl, BowlsApi.verify_bowl_access, h]⟩
  · exact ⟨⟨401, d⟩,
      by simp [BowlsApi.get_and_verify_bowl, BowlsApi.verify_bowl_access, hb, hne]⟩

/-- Denied access makes the UI verify step fail. -/
lemma verifyDefault_denied (db : DB) (u : User) (bid : Nat)
    (h : accessDenied db bid u) :
    ∃ e, BowlsUi.verifyDefault (findBowl db bid) u = .error e := by
  rcases h with h | ⟨b, hb, hne⟩
  · exact ⟨⟨404, "Bowl not found"⟩,
      by simp [BowlsUi.verifyDefault, BowlsUi.verify_bowl_access, h]⟩
  · exact ⟨⟨404, "Not authorized to access this bowl"⟩,
      by simp [BowlsUi.verifyDefault, BowlsUi.verify_bowl_access, hb, hne]⟩

/-- Counterexample to claim C2 as stated: when a bowl exists but is
owned by someone else, the API helper answers with status 401, the very
status `get_current_user` uses for the Unauthenticated condition, and
the UI helper answers with status 404; neither fails with a Forbidden
condition distinct from Unauthenticated. -/
theorem verify_bowl_access_not_forbidden_counterexample :
    BowlsApi.verify_bowl_access (some ⟨1, "My Bowl", 1, false⟩) uBob
        "Bowl not found" "Not authorized to modify this bowl"
      = .error ⟨401, "Not authorized to modify this bowl"⟩
    ∧ Auth.get_current_user none [uAlice, uBob] = .error ⟨401, "Not authenticated"⟩
    ∧ BowlsUi.verify_bowl_access (some ⟨1, "My Bowl", 1, false⟩) uBob
        "Bowl not found" "Not authorized to access this bowl"
      = .error ⟨404, "Not authorized to access this bowl"⟩ := by
  refine ⟨by decide, by decide, by decide⟩

/-- Claim C2 (amended): a bowl-scoped operation fails with status 404
when the bowl does not exist; when the bowl exists but is owned by
another user the API helper fails with status 401 (the same status as
the Unauthenticated condition, distinguished only by its detail text)
and the UI helper with status 404; and in every handler the check runs
before any mutation, so a denied request returns an error with the
database unchanged. -/
theorem bowl_access_check_before_mutation (db : DB) (u : User) (b : Bowl)
    (bid iid : Nat) (q : ℚ) (nm nfd uad : String) :
    (BowlsApi.verify_bowl_access none u nfd uad = .error ⟨404, nfd⟩)
    ∧ (BowlsUi.verify_bowl_access none u nfd uad = .error ⟨404, nfd⟩)
    ∧ (b.user_id ≠ u.id →
        BowlsApi.verify_bowl_access (some b) u nfd uad = .error ⟨401, uad⟩
        ∧ BowlsUi.verify_bowl_access (some b) u nfd uad = .error ⟨404, uad⟩)
    ∧ (b.user_id = u.id →
        BowlsApi.verify_bowl_access (some b) u nfd uad = .ok b
        ∧ BowlsUi.verify_bowl_access (some b) u nfd uad = .ok b)
    ∧ (accessDenied db bid u →
        failsCleanly (BowlsApi.update_bowl nm bid u db) db
        ∧ failsCleanly (BowlsApi.save_bowl bid u db) db
        ∧ failsCleanly (BowlsApi.add_ingredient ⟨bid, iid, q⟩ u db) db
        ∧ failsCleanly (BowlsApi.remove_ingredient bid iid u db) db
        ∧ failsCleanly (BowlsApi.delete_bowl bid u db) db
        ∧ (bid ≠ 0 → failsCleanly (BowlsUi.get_bowl_view (some bid) u db) db)
        ∧ (bid ≠ 0 → failsCleanly (BowlsUi.add_ingredient_to_bowl (some bid) iid q u db) db)
        ∧ failsCleanly (BowlsUi.remove_ingredient_from_bowl bid iid u db) db
        ∧ failsCleanly (BowlsUi.update_bowl_name bid nm u db) db
        ∧ failsCleanly (BowlsUi.save_bowl_htmx bid u db) db
        ∧ failsCleanly (BowlsUi.delete_bowl bid u db) db) := by
  refine ⟨rfl, rfl, ?_, ?_, ?_⟩
  · intro hne
    constructor <;> simp [BowlsApi.verify_bowl_access, BowlsUi.verify_bowl_access, hne]
  · intro heq
    constructor <;> simp [BowlsApi.verify_bowl_access, BowlsUi.verify_bowl_access, heq]
  · intro hdenied
    obtain ⟨e, he⟩ := get_and_verify_denied db u bid "Not authorized to update this bowl" hdenied
    obtain ⟨e2, he2⟩ := get_and_verify_denied db u bid "Not authorized to save this bowl" hdenied
    obtain ⟨e3, he3⟩ := get_and_verify_denied db u bid "Not authorized to modify this bowl" hdenied
    obtain ⟨e4, he4⟩ := get_and_verify_denied db u bid "Not authorized to delete this bowl" hdenied
    obtain ⟨e5, he5⟩ := verifyDefault_denied db u bid hdenied
    refine ⟨?_, ?_, ?_, ?_, ?_, ?_, ?_, ?_, ?_, ?_, ?_⟩
    · exact ⟨by simp [BowlsApi.update_bowl, he], e, by simp [BowlsApi.update_bowl, he]⟩
    · exact ⟨by simp [BowlsApi.save_bowl, he2], e2, by simp [BowlsApi.save_bowl, he2]⟩
    · exact ⟨by simp [BowlsApi.add_ingredient, he3], e3, by simp [BowlsApi.add_ingredient, he3]⟩
    · exact ⟨by simp [BowlsApi.remove_ingredient, he3], e3, by simp [BowlsApi.remove_ingredient, he3]⟩
    · exact ⟨by simp [BowlsApi.delete_bowl, he4], e4, by simp [BowlsApi.delete_bowl, he4]⟩
    · intro hbid
      exact ⟨by simp [BowlsUi.get_bowl_view, BowlsUi.truthyId, hbid, he5],
        e5, by simp [BowlsUi.get_bowl_view, BowlsUi.truthyId, hbid, he5]⟩
    · intro hbid
      exact ⟨by simp [BowlsUi.add_ingredient_to_bowl, BowlsUi.truthyId, hbid, he5],
        e5, by simp [BowlsUi.add_ingredient_to_bowl, BowlsUi.truthyId, hbid, he5]⟩
    · exact ⟨by simp [BowlsUi.remove_ingredient_from_bowl, he5],
        e5, by simp [BowlsUi.remove_ingredient_from_bowl, he5]⟩
    · exact ⟨by simp [BowlsUi.update_bowl_name, he5],
        e5, by simp [BowlsUi.update_bowl_name, he5]⟩
    · exact ⟨by simp [BowlsUi.save_bowl_htmx, he5],
        e5, by simp [BowlsUi.save_bowl_htmx, he5]⟩
    · exact ⟨by simp [BowlsUi.delete_bowl, he5],
        e5, by simp [BowlsUi.delete_bowl, he5]⟩

/-- Witness for C2 (amended): user 2 owns no bowl in the fixture
database, so the rename endpoint denies bowl 1 for user 2 and leaves
the database unchanged. -/
theorem bowl_access_check_before_mutation_witness :
    failsCleanly (BowlsApi.update_bowl "X" 1 uBob testDb) testDb :=
  ((bowl_access_check_before_mutation testDb uBob ⟨1, "My Bowl", 1, false⟩ 1 1 1 "X" "n" "u"
    ).2.2.2.2 (Or.inr ⟨⟨1, "My Bowl", 1, false⟩, by decide, by decide⟩)).1

/-- Requesting the aggregated view of a nonexistent bowl id fails with
404 "Bowl not found" and changes nothing. -/
lemma get_bowl_view_not_found (db : DB) (u : User) (bid : Nat) (hbid : bid ≠ 0)
    (h : findBowl db bid = none) :
    BowlsUi.get_bowl_view (some bid) u db = (.error ⟨404, "Bowl not found"⟩, db) := by
  simp [BowlsUi.get_bowl_view, BowlsUi.truthyId, hbid, BowlsUi.verifyDefault,
    BowlsUi.verify_bowl_access, h]

/-- Claim C7: aggregating a bowl id that resolves to no bowl fails with
NotFound, and a successful bowl deletion removes the bowl together with
every one of its lines, so aggregating that id afterwards fails with
NotFound. -/
theorem aggregate_not_found_after_delete (db : DB) (u : User) (bid : Nat) :
    (bid ≠ 0 → findBowl db bid = none →
      BowlsUi.get_bowl_view (some bid) u db = (.error ⟨404, "Bowl not found"⟩, db))
    ∧ (∀ db2, BowlsApi.delete_bowl bid u db = (.ok (), db2) →
        findBowl db2 bid = none
        ∧ db2.bowlIngredients.filter (fun li => li.bowl_id == bid) = []
        ∧ (bid ≠ 0 →
            BowlsUi.get_bowl_view (some bid) u db2 = (.error ⟨404, "Bowl not found"⟩, db2))) := by
  constructor
  · exact fun hbid h => get_bowl_view_not_found db u bid hbid h
  · intro db2 hdel
    cases hv : BowlsApi.get_and_verify_bowl bid u db "Not authorized to delete this bowl" with
    | error e =>
      rw [BowlsApi.delete_bowl, hv] at hdel
      exact absurd (congrArg Prod.fst hdel) (by simp)
    | ok bowl =>
      rw [BowlsApi.delete_bowl, hv] at hdel
      have hdb2 := congrArg Prod.snd hdel
      simp only at hdb2
      have hbowls : db2.bowls
          = (BowlsApi.delete_bowl_ingredients bid db).bowls.filter (fun b => !(b.id == bid)) := by
        rw [← hdb2]
      have hlines : db2.bowlIngredients
          = db.bowlIngredients.filter (fun bi => !(bi.bowl_id == bid)) := by
        rw [← hdb2]; rfl
      have hfind : findBowl db2 bid = none := by
        rw [findBowl, hbowls, List.find?_eq_none]
        intro x hx
        have := (List.mem_filter.mp hx).2
        simp only [Bool.not_eq_eq_eq_not, Bool.not_true] at this
        simp [this]
      refine ⟨hfind, ?_, fun hbid => get_bowl_view_not_found db2 u bid hbid hfind⟩
      rw [hlines, List.filter_eq_nil_iff]
      intro a ha
      have := (List.mem_filter.mp ha).2
      simp only [Bool.not_eq_eq_eq_not, Bool.not_true] at this
      simp [this]

/-- Witness for C7: deleting bowl 1 of the fixture database removes the
bowl and its line, and viewing bowl 1 afterwards yields 404. -/
theorem aggregate_not_found_after_delete_witness :
    BowlsApi.delete_bowl 1 uAlice testDb
      = (.ok (), ⟨[uAlice, uBob], [ingBanana, ingHoney], [], [], [], 2, 2⟩)
    ∧ BowlsUi.get_bowl_view (some 1) uAlice ⟨[uAlice, uBob], [ingBanana, ingHoney], [], [], [], 2, 2⟩
      = (.error ⟨404, "Bowl not found"⟩, ⟨[uAlice, uBob], [ingBanana, ingHoney], [], [], [], 2, 2⟩) :=
  ⟨by decide,
   ((aggregate_not_found_after_delete testDb uAlice 1).2
     ⟨[uAlice, uBob], [ingBanana, ingHoney], [], [], [], 2, 2⟩ (by decide)).2.2 (by decide)⟩

/-- Claim C8 is a defect of the code: the UI rename handler, after
committing the rename, calls `calculate_nutrition(bowl.id, session)`,
omitting the acting user (and the session), so the request raises
`TypeError` and ends in a 500 after the rename instead of recomputing
nutrition with the user's overrides; this theorem evaluates the
embedded handler at a concrete renaming request. -/
theorem update_bowl_name_skips_user_nutrition :
    BowlsUi.update_bowl_name 1 "Renamed" uAlice testDb
      = (.error ⟨500, "TypeError: calculate_nutrition() missing 1 required positional argument"⟩,
         ⟨[uAlice, uBob], [ingBanana, ingHoney], [⟨1, "Renamed", 1, false⟩], [liBanana], [], 2, 2⟩) := by
  decide

/-- Counterexample to claim C9 as stated: the UI form handler accepts a
request with quantity 0 — it answers success and stores a line with
quantity 0 instead of rejecting the request as invalid input. -/
theorem ui_add_ingredient_nonpositive_counterexample :
    (BowlsUi.add_ingredient_to_bowl (some 1) 2 0 uAlice testDb).2
      = { testDb with bowlIngredients := [liBanana, ⟨2, 1, 2, 0⟩], nextLineId := 3 }
    ∧ ∃ v, (BowlsUi.add_ingredient_to_bowl (some 1) 2 0 uAlice testDb).1 = Except.ok v := by
  exact ⟨by decide, ⟨_, rfl⟩⟩

/-- Claim C9 (amended): the JSON API rejects a non-positive quantity at
the request-validation boundary with a 422 validation error, so its
handler never runs and nothing is mutated; the HTML form handler
performs no quantity validation at all and creates or updates the line
with whatever quantity was submitted, non-positive included. -/
theorem quantity_validation_split (b i : Nat) (q : ℚ) (db : DB) (u : User) (bowl : Bowl) :
    (q ≤ 0 → BowlsApi.parseAddIngredient b i q = .error ⟨422, "Unprocessable Entity"⟩)
    ∧ (0 < q → 1 ≤ b → 1 ≤ i → BowlsApi.parseAddIngredient b i q = .ok ⟨b, i, q⟩)
    ∧ (b ≠ 0 → findBowl db b = some bowl → bowl.user_id = u.id →
        findIngredient db i ≠ none →
        (BowlsUi.add_ingredient_to_bowl (some b) i q u db).2 = upsertLine bowl.id i q db) := by
  refine ⟨?_, ?_, ?_⟩
  · intro hq
    have hnot : ¬(1 ≤ b ∧ 1 ≤ i ∧ 0 < q) := by
      rintro ⟨-, -, hpos⟩
      exact absurd hq (not_le.mpr hpos)
    simp [BowlsApi.parseAddIngredient, hnot]
  · intro hq hb hi
    simp [BowlsApi.parseAddIngredient, hb, hi, hq]
  · intro hb0 hfb hown hingr
    cases hi2 : findIngredient db i with
    | none => exact absurd hi2 hingr
    | some ing =>
      simp [BowlsUi.add_ingredient_to_bowl, BowlsUi.truthyId, hb0, BowlsUi.verifyDefault,
        BowlsUi.verify_bowl_access, hfb, hown, hi2]

/-- Witness for C9 (amended): quantity 0 is rejected by the API request
model, while the UI form handler upserts a line with quantity -1. -/
theorem quantity_validation_split_witness :
    BowlsApi.parseAddIngredient 1 1 0 = .error ⟨422, "Unprocessable Entity"⟩
    ∧ (BowlsUi.add_ingredient_to_bowl (some 1) 2 (-1) uAlice testDb).2
        = upsertLine 1 2 (-1) testDb :=
  ⟨(quantity_validation_split 1 1 0 testDb uAlice ⟨1, "My Bowl", 1, false⟩).1 (by norm_num),
   (quantity_validation_split 1 2 (-1) testDb uAlice ⟨1, "My Bowl", 1, false⟩).2.2
     (by decide) (by decide) (by decide) (by decide)⟩

/-- In a user table with pairwise distinct usernames, the lookup by
username finds exactly the member bearing it. -/
lemma find?_username_of_mem (users : List User) (u : User)
    (huniq : users.Pairwise (fun a b => a.username ≠ b.username)) (hm : u ∈ users) :
    users.find? (fun v => v.username == u.username) = some u := by
  induction users with
  | nil => cases hm
  | cons v rest ih =>
    rcases List.mem_cons.mp hm with rfl | hm2
    · simp [List.find?_cons]
    · have hvu : v.username ≠ u.username :=
        (List.pairwise_cons.mp huniq).1 u hm2
      have hfalse : (v.username == u.username) = false := by
        simp [hvu]
      rw [List.find?_cons, hfalse]
      exact ih (List.pairwise_cons.mp huniq).2 hm2

/-- Claim C10: the acting user is resolved solely from the plaintext
value of the "username" cookie.  A cookie equal to the username of a
stored user (usernames are pairwise distinct, per the unique column
constraint, and nonempty, per registration validation) authenticates as
exactly that user, with no secret or token involved; a missing cookie
or one matching no stored username fails with 401, while the optional
variant yields no user instead of failing. -/
theorem cookie_authentication_spec (users : List User) (u : User) (c : String) :
    (users.Pairwise (fun a b => a.username ≠ b.username) → u ∈ users → u.username ≠ "" →
        Auth.get_current_user (some u.username) users = .ok u
        ∧ Auth.get_optional_user (some u.username) users = some u)
    ∧ Auth.get_current_user none users = .error ⟨401, "Not authenticated"⟩
    ∧ Auth.get_optional_user none users = none
    ∧ ((∀ v ∈ users, v.username ≠ c) →
        Auth.get_current_user (some c) users
          = .error ⟨401, if c = "" then "Not authenticated" else "User not found"⟩
        ∧ Auth.get_optional_user (some c) users = none) := by
  refine ⟨?_, rfl, rfl, ?_⟩
  · intro huniq hm hne
    have hfind := find?_username_of_mem users u huniq hm
    constructor <;>
      simp [Auth.get_current_user, Auth.get_optional_user, hne, hfind]
  · intro hall
    by_cases hc : c = ""
    · subst hc
      constructor <;> simp [Auth.get_current_user, Auth.get_optional_user]
    · have hfind : users.find? (fun v => v.username == c) = none := by
        rw [List.find?_eq_none]
        intro v hv
        simp [hall v hv]
      constructor <;>
        simp [Auth.get_current_user, Auth.get_optional_user, hc, hfind]

/-- Witness for C10: the cookie "alice" authenticates as the fixture
user alice, both in the required and the optional variant. -/
theorem cookie_authentication_spec_witness :
    Auth.get_current_user (some uAlice.username) [uAlice, uBob] = .ok uAlice
    ∧ Auth.get_optional_user (some uAlice.username) [uAlice, uBob] = some uAlice :=
  (cookie_authentication_spec [uAlice, uBob] uAlice "x").1
    (by decide) (by decide) (by decide)
